import Mathlib

/-
Shallow embedding of the order/payment core of `app_veaza.py` (Veaza Plada
back-office console).  Monetary amounts are modelled as rationals; Python's
`round(x, 2)` is modelled by `round2`; MongoDB ObjectIds and datetimes are
modelled as naturals.  The relevant state is the `ordenes` and `pagos`
collections, modelled as lists.
-/

namespace Veaza

/-- Python `round(x, 2)` as used on the monetary amounts of the app:
round to two decimal places (ties are immaterial to every claim below,
so half-up is used). -/
def round2 (q : ℚ) : ℚ := ((⌊q * 100 + 1/2⌋ : ℤ) : ℚ) / 100

/-- Python `str.strip().upper()` as applied to the currency inputs. -/
def stripUpper (s : String) : String :=
  ⟨(((s.toList.dropWhile Char.isWhitespace).reverse.dropWhile
      Char.isWhitespace).reverse).map Char.toUpper⟩

/-- The payment-status enumeration offered by the `pago_form` selectbox
(`["PENDIENTE","APROBADO","RECHAZADO","REEMBOLSADO"]`, line 517). -/
inductive EstadoPago where
  | PENDIENTE
  | APROBADO
  | RECHAZADO
  | REEMBOLSADO
deriving DecidableEq, Repr

/-- A document of the `pagos` collection, as built at lines 528-536. -/
structure Pago where
  orden_id : Nat
  monto : ℚ
  moneda : String
  metodo : String
  estado : EstadoPago
  transaccion_ref : String
  creado_en : Nat
deriving DecidableEq, Repr

/-- A line item of an order, as built at lines 444 and 451-453
(`{"producto_id": ..., "cantidad": ..., "precio": ..., "subtotal": ...}`). -/
structure Item where
  producto_id : Nat
  cantidad : Nat
  precio : ℚ
  subtotal : ℚ
deriving DecidableEq, Repr

/-- A document of the `ordenes` collection, as built at lines 456-466.
`total_pagado` is absent until the first approved payment (lines 544-551),
hence an `Option`. -/
structure Orden where
  id : Nat
  codigo : String
  cliente_id : Nat
  canal_codigo : String
  estado : String
  items : List Item
  moneda : String
  total : ℚ
  total_pagado : Option ℚ
  creada_en : Nat
  actualizada_en : Nat
deriving DecidableEq, Repr

/-- The slice of the document store the payment tab touches. -/
structure DB where
  ordenes : List Orden
  pagos : List Pago
deriving DecidableEq, Repr

/-- Outcomes of a `pago_form` submission that do not persist anything:
`valueError` models the uncaught `ValueError` raised by `float(monto)` on a
non-numeric input (line 522, before any write), and `duplicatePayment` the
rejection at lines 525-526. -/
inductive PagoError where
  | valueError
  | duplicatePayment
deriving DecidableEq, Repr

/-- The duplicate guard's query (lines 520-524): an existing payment on the
same order with the identical amount and status APROBADO. -/
def esDupAprobado (pagos : List Pago) (oid : Nat) (m : ℚ) : Prop :=
  ∃ p ∈ pagos, p.orden_id = oid ∧ p.monto = m ∧ p.estado = EstadoPago.APROBADO

instance decEsDupAprobado (pagos : List Pago) (oid : Nat) (m : ℚ) :
    Decidable (esDupAprobado pagos oid m) := by
  unfold esDupAprobado
  infer_instance

/-- The new `pago_doc` built at lines 528-536. -/
def pagoDocDe (o : Orden) (monto : ℚ) (moneda metodo : String)
    (estado : EstadoPago) (now : Nat) : Pago :=
  { orden_id := o.id
    monto := monto
    moneda := stripUpper moneda
    metodo := metodo
    estado := estado
    transaccion_ref := "TRX-" ++ o.codigo
    creado_en := now }

/-- Sum of `monto` over the payments of order `oid` with status APROBADO:
the aggregation of lines 541-542 (`aprobados` re-read, then summed). -/
def montoAprobado (pagos : List Pago) (oid : Nat) : ℚ :=
  ((pagos.filter fun p =>
      decide (p.orden_id = oid ∧ p.estado = EstadoPago.APROBADO)).map Pago.monto).sum

/-- Mongo `update_one` on `ordenes` (lines 544-551): rewrite the first
document whose `_id` matches. -/
def updateOrden (l : List Orden) (oid : Nat) (f : Orden → Orden) : List Orden :=
  match l with
  | [] => []
  | o :: rest => if o.id = oid then f o :: rest else o :: updateOrden rest oid f

/-- The `pago_form` submission handler, lines 518-551.  `current_order` is
the order document fetched at lines 497-504; `monto?` is `float(monto)` on
the Monto text input, `none` when the text is non-numeric (in the source the
`float` call at line 522 raises before anything is written).  On success the
new payment is appended and, when it is APROBADO, `total_pagado`, `estado`
and `actualizada_en` of the order are rewritten per lines 539-551. -/
def registrar_pago (db : DB) (current_order : Orden) (monto? : Option ℚ)
    (moneda metodo : String) (estado : EstadoPago) (now : Nat) :
    Except PagoError DB :=
  match monto? with
  | none => .error .valueError
  | some monto =>
    if esDupAprobado db.pagos current_order.id monto ∧ estado = EstadoPago.APROBADO then
      .error .duplicatePayment
    else
      let pagos' := db.pagos ++ [pagoDocDe current_order monto moneda metodo estado now]
      if estado = EstadoPago.APROBADO then
        let total_pagado := round2 (montoAprobado pagos' current_order.id)
        let nuevo_estado :=
          if current_order.total ≤ total_pagado then "PAGADA" else current_order.estado
        .ok { ordenes :=
                updateOrden db.ordenes current_order.id fun o =>
                  { o with total_pagado := some total_pagado
                           estado := nuevo_estado
                           actualizada_en := now }
              pagos := pagos' }
      else
        .ok { db with pagos := pagos' }

/-- Default value of the Monto text input (line 514):
`str(current_order.get("total","") or "")` — the order's own `total`, shown
empty when that total is falsy (0 or missing). -/
def defaultMonto (o : Orden) : Option ℚ :=
  if o.total = 0 then none else some o.total

/-- One submission of the payment form against the order `oid`, as a state
transformer: fetch the order (`find_one`, lines 498-504; nothing happens when
it is absent), run the handler, keep the old state when it errors (the error
paths write nothing). -/
structure Registro where
  monto : ℚ
  moneda : String
  metodo : String
  estado : EstadoPago
  now : Nat
deriving DecidableEq, Repr

def pasoRegistro (db : DB) (oid : Nat) (r : Registro) : DB :=
  match db.ordenes.find? (fun x => x.id == oid) with
  | none => db
  | some o =>
    match registrar_pago db o (some r.monto) r.moneda r.metodo r.estado r.now with
    | .ok db' => db'
    | .error _ => db

/-- Replay a sequence of payment-form submissions against order `oid`. -/
def aplicarRegistros (db : DB) (oid : Nat) (rs : List Registro) : DB :=
  rs.foldl (fun d r => pasoRegistro d oid r) db

/-- The displayed `total_pagado` of order `oid` (0 while the field is
absent, matching `get`-style reads). -/
def tpOf (db : DB) (oid : Nat) : ℚ :=
  match db.ordenes.find? (fun x => x.id == oid) with
  | some o => o.total_pagado.getD 0
  | none => 0

/-- The `estado` of order `oid`, when the order exists. -/
def estadoOf (db : DB) (oid : Nat) : Option String :=
  (db.ordenes.find? (fun x => x.id == oid)).map Orden.estado

/-- Reachability invariant of the payment tab: the stored `total_pagado` of
any order with id `oid` never exceeds the rounded sum of its approved
payments (it is absent before the first approved payment and exactly that
rounded sum right after each update, lines 541-551). -/
def tpConsistente (db : DB) (oid : Nat) : Prop :=
  ∀ o ∈ db.ordenes, o.id = oid →
    o.total_pagado.getD 0 ≤ round2 (montoAprobado db.pagos oid)

/-- `validar_pago` (lines 124-128): each of `orden_id`, `monto`, `moneda`,
`metodo`, `estado` must be present and truthy-or-zero (`not d.get(f) and
d.get(f) != 0`).  A present numeric `monto` — zero or negative included —
passes.  Note this validator is never invoked by the payment tab. -/
def validar_pago (orden_id : Option Nat) (monto : Option ℚ)
    (moneda metodo estado : String) : Bool × String :=
  if orden_id.isNone then (false, "campo orden_id es obligatorio.")
  else if monto.isNone then (false, "campo monto es obligatorio.")
  else if moneda = "" then (false, "campo moneda es obligatorio.")
  else if metodo = "" then (false, "campo metodo es obligatorio.")
  else if estado = "" then (false, "campo estado es obligatorio.")
  else (true, "")

/-- `validar_orden` (lines 116-122): `codigo`, `canal_codigo`, `moneda`,
`items` must be truthy (`cliente_id` is an ObjectId, always truthy), then
the item list must be non-empty. -/
def validar_orden (d : Orden) : Bool × String :=
  if d.codigo = "" then (false, "campo codigo es obligatorio.")
  else if d.canal_codigo = "" then (false, "campo canal_codigo es obligatorio.")
  else if d.moneda = "" then (false, "campo moneda es obligatorio.")
  else if d.items = [] then (false, "campo items es obligatorio.")
  else if d.items.length = 0 then (false, "la orden debe tener al menos 1 item.")
  else (true, "")

/-- Raw line item as assembled by the order form (line 444):
a possibly-unselected product, a quantity and the catalog price. -/
structure ItemIn where
  producto_id : Option Nat
  cantidad : Nat
  precio : ℚ
deriving DecidableEq, Repr

/-- The order document assembled at lines 451-466: every item gets
`subtotal = round(precio*cantidad, 2)`, `total = round(sum(subtotals), 2)`,
the code comes from the clock, the estado is CREADA. -/
def ordenDoc (cli : Nat) (canal monedaIn : String) (itemsIn : List ItemIn)
    (now oid : Nat) : Orden :=
  let items := itemsIn.map fun x =>
    { producto_id := x.producto_id.getD 0
      cantidad := x.cantidad
      precio := x.precio
      subtotal := round2 (x.precio * x.cantidad) : Item }
  { id := oid
    codigo := "ORD-" ++ toString now
    cliente_id := cli
    canal_codigo := canal
    estado := "CREADA"
    items := items
    moneda := stripUpper monedaIn
    total := round2 (items.map Item.subtotal).sum
    total_pagado := none
    creada_en := now
    actualizada_en := now }

/-- The Crear-orden handler (lines 446-474): require a customer, require a
product on every line, build the document (`ordenDoc`), validate, persist. -/
def crearOrden (cliente : Option Nat) (canal monedaIn : String)
    (itemsIn : List ItemIn) (now oid : Nat) : Except String Orden :=
  match cliente with
  | none => .error "Debes seleccionar un cliente."
  | some cli =>
    if itemsIn.any (fun x => x.producto_id.isNone) then
      .error "Todos los items deben tener producto."
    else
      match validar_orden (ordenDoc cli canal monedaIn itemsIn now oid) with
      | (true, _) => .ok (ordenDoc cli canal monedaIn itemsIn now oid)
      | (false, msg) => .error msg

/-! ### Helper lemmas -/

lemma round2_mono {q r : ℚ} (h : q ≤ r) : round2 q ≤ round2 r := by
  unfold round2
  have h2 : (⌊q * 100 + 1/2⌋ : ℤ) ≤ ⌊r * 100 + 1/2⌋ := by
    apply Int.floor_le_floor
    linarith
  have h3 : ((⌊q * 100 + 1/2⌋ : ℤ) : ℚ) ≤ ((⌊r * 100 + 1/2⌋ : ℤ) : ℚ) := by
    exact_mod_cast h2
  linarith

lemma round2_zero : round2 0 = 0 := by
  norm_num [round2]

lemma montoAprobado_append (ps : List Pago) (p : Pago) (oid : Nat) :
    montoAprobado (ps ++ [p]) oid =
      montoAprobado ps oid +
        (if p.orden_id = oid ∧ p.estado = EstadoPago.APROBADO then p.monto else 0) := by
  by_cases hp : p.orden_id = oid ∧ p.estado = EstadoPago.APROBADO <;>
    simp [montoAprobado, List.filter_append, List.filter_cons, hp]

lemma find?_updateOrden (l : List Orden) (oid : Nat) (f : Orden → Orden) (o : Orden)
    (hf : (f o).id = o.id) (h : l.find? (fun x => x.id == oid) = some o) :
    (updateOrden l oid f).find? (fun x => x.id == oid) = some (f o) := by
  induction l with
  | nil => simp at h
  | cons a l ih =>
    by_cases ha : a.id = oid
    · rw [List.find?_cons_of_pos _ (by simpa using ha)] at h
      obtain rfl : a = o := by injection h
      unfold updateOrden
      rw [if_pos ha]
      exact List.find?_cons_of_pos _ (by simp [hf, ha])
    · rw [List.find?_cons_of_neg _ (by simpa using ha)] at h
      unfold updateOrden
      rw [if_neg ha, List.find?_cons_of_neg _ (by simpa using ha)]
      exact ih h

lemma mem_updateOrden {l : List Orden} {oid : Nat} {f : Orden → Orden} {x : Orden}
    (hx : x ∈ updateOrden l oid f) : x ∈ l ∨ ∃ y ∈ l, y.id = oid ∧ x = f y := by
  induction l with
  | nil => simp [updateOrden] at hx
  | cons a l ih =>
    unfold updateOrden at hx
    by_cases ha : a.id = oid
    · rw [if_pos ha] at hx
      rcases List.mem_cons.mp hx with h | h
      · exact Or.inr ⟨a, List.mem_cons_self a l, ha, h⟩
      · exact Or.inl (List.mem_cons_of_mem _ h)
    · rw [if_neg ha] at hx
      rcases List.mem_cons.mp hx with h | h
      · exact Or.inl (h ▸ List.mem_cons_self a l)
      · rcases ih h with h' | ⟨y, hy, hyid, hxy⟩
        · exact Or.inl (List.mem_cons_of_mem _ h')
        · exact Or.inr ⟨y, List.mem_cons_of_mem _ hy, hyid, hxy⟩

/-- Closed form of a successful APROBADO registration (guard silent):
exactly the writes of lines 537-551. -/
lemma registrar_pago_aprobado_eq (db : DB) (o : Orden) (m : ℚ) (mon met : String)
    (now : Nat) (hnodup : ¬ esDupAprobado db.pagos o.id m) :
    registrar_pago db o (some m) mon met .APROBADO now =
      .ok { ordenes :=
              updateOrden db.ordenes o.id fun x =>
                { x with
                    total_pagado := some (round2 (montoAprobado
                      (db.pagos ++ [pagoDocDe o m mon met .APROBADO now]) o.id))
                    estado :=
                      if o.total ≤ round2 (montoAprobado
                          (db.pagos ++ [pagoDocDe o m mon met .APROBADO now]) o.id)
                      then "PAGADA" else o.estado
                    actualizada_en := now }
            pagos := db.pagos ++ [pagoDocDe o m mon met .APROBADO now] } := by
  simp only [registrar_pago]
  rw [if_neg (fun h => hnodup h.1)]
  simp

/-! ### Concrete fixtures for witnesses and counterexamples -/

def ordenW : Orden :=
  { id := 1
    codigo := "ORD-20240101000000"
    cliente_id := 7
    canal_codigo := "WEB"
    estado := "CREADA"
    items := []
    moneda := "PEN"
    total := 25
    total_pagado := none
    creada_en := 0
    actualizada_en := 0 }

def dbW : DB := { ordenes := [ordenW], pagos := [] }

def pagoW40 : Pago :=
  { orden_id := 1
    monto := 40
    moneda := "PEN"
    metodo := "TARJETA"
    estado := .APROBADO
    transaccion_ref := "TRX-ORD-20240101000000"
    creado_en := 1 }

def ordenW100 : Orden := { ordenW with total := 100, total_pagado := some 40 }

def dbW100 : DB := { ordenes := [ordenW100], pagos := [pagoW40] }

/-! ### Claim theorems -/

/-- C1: after registering an APROBADO payment that the duplicate guard does
not reject, the order's `total_pagado` equals the rounded sum of `monto`
over all its APROBADO payments (the newly persisted one included), and its
estado becomes PAGADA when that sum reaches `total`, otherwise it keeps its
pre-payment value (lines 539-551). -/
theorem C1_aprobado_actualiza_total_y_estado (db : DB) (o : Orden) (m : ℚ)
    (mon met : String) (now : Nat)
    (hfind : db.ordenes.find? (fun x => x.id == o.id) = some o)
    (hnodup : ¬ esDupAprobado db.pagos o.id m) :
    ∃ db', registrar_pago db o (some m) mon met .APROBADO now = .ok db'
      ∧ ∃ o', db'.ordenes.find? (fun x => x.id == o.id) = some o'
        ∧ o'.total_pagado = some (round2 (montoAprobado db'.pagos o.id))
        ∧ (o.total ≤ round2 (montoAprobado db'.pagos o.id) → o'.estado = "PAGADA")
        ∧ (¬ o.total ≤ round2 (montoAprobado db'.pagos o.id) → o'.estado = o.estado) := by
  refine ⟨_, registrar_pago_aprobado_eq db o m mon met now hnodup,
    _, find?_updateOrden _ _ _ _ rfl hfind, rfl, ?_, ?_⟩
  · intro h
    exact if_pos h
  · intro h
    exact if_neg h

/-- Witness for C1: paying the full total of a fresh order marks it PAGADA
with `total_pagado = 25`. -/
theorem C1_witness :
    ∃ db', registrar_pago dbW ordenW (some 25) "PEN" "TARJETA" .APROBADO 3 = .ok db'
      ∧ ∃ o', db'.ordenes.find? (fun x => x.id == ordenW.id) = some o'
        ∧ o'.total_pagado = some (round2 (montoAprobado db'.pagos ordenW.id))
        ∧ (ordenW.total ≤ round2 (montoAprobado db'.pagos ordenW.id) → o'.estado = "PAGADA")
        ∧ (¬ ordenW.total ≤ round2 (montoAprobado db'.pagos ordenW.id) →
            o'.estado = ordenW.estado) :=
  C1_aprobado_actualiza_total_y_estado dbW ordenW 25 "PEN" "TARJETA" 3 rfl (by decide)

/-- C2: an APROBADO registration is rejected with `DuplicatePaymentError`
exactly when some existing payment on the same order is APROBADO with the
identical amount (lines 519-526); with any different amount the guard stays
silent. -/
theorem C2_guard_duplicado (db : DB) (o : Orden) (m : ℚ) (mon met : String) (now : Nat) :
    registrar_pago db o (some m) mon met .APROBADO now = .error .duplicatePayment
      ↔ esDupAprobado db.pagos o.id m := by
  constructor
  · intro h
    by_contra hd
    rw [registrar_pago_aprobado_eq db o m mon met now hd] at h
    cases h
  · intro hd
    simp only [registrar_pago]
    rw [if_pos ⟨hd, trivial⟩]

/-- C4: a PENDIENTE or RECHAZADO registration persists the payment and
leaves the `ordenes` collection — hence every order's `total_pagado` and
estado — untouched (only the APROBADO branch of lines 539-551 writes). -/
theorem C4_pendiente_rechazado_no_afecta (db : DB) (o : Orden) (m : ℚ)
    (mon met : String) (e : EstadoPago) (now : Nat)
    (he : e = .PENDIENTE ∨ e = .RECHAZADO) :
    registrar_pago db o (some m) mon met e now =
      .ok { db with pagos := db.pagos ++ [pagoDocDe o m mon met e now] } := by
  have hne : e ≠ EstadoPago.APROBADO := by
    rcases he with rfl | rfl <;> simp
  simp only [registrar_pago]
  rw [if_neg (fun h => hne h.2), if_neg hne]

/-- Witness for C4: a PENDIENTE payment of 50 is persisted and the order
list is unchanged. -/
theorem C4_witness :
    registrar_pago dbW ordenW (some 50) "PEN" "YAPE" .PENDIENTE 9 =
      .ok { dbW with pagos := dbW.pagos ++ [pagoDocDe ordenW 50 "PEN" "YAPE" .PENDIENTE 9] } :=
  C4_pendiente_rechazado_no_afecta dbW ordenW 50 "PEN" "YAPE" .PENDIENTE 9 (Or.inl rfl)

/-- C9: the APROBADO update of lines 544-551 writes only `total_pagado`,
`estado` and `actualizada_en`; code, customer, channel, currency, items,
total and creation timestamp of the order are unchanged. -/
theorem C9_update_solo_tres_campos (db : DB) (o : Orden) (m : ℚ)
    (mon met : String) (now : Nat)
    (hfind : db.ordenes.find? (fun x => x.id == o.id) = some o)
    (hnodup : ¬ esDupAprobado db.pagos o.id m) :
    ∃ db', registrar_pago db o (some m) mon met .APROBADO now = .ok db'
      ∧ ∃ o', db'.ordenes.find? (fun x => x.id == o.id) = some o'
        ∧ o'.codigo = o.codigo ∧ o'.cliente_id = o.cliente_id
        ∧ o'.canal_codigo = o.canal_codigo ∧ o'.moneda = o.moneda
        ∧ o'.items = o.items ∧ o'.total = o.total ∧ o'.creada_en = o.creada_en
        ∧ o'.actualizada_en = now := by
  exact ⟨_, registrar_pago_aprobado_eq db o m mon met now hnodup,
    _, find?_updateOrden _ _ _ _ rfl hfind, rfl, rfl, rfl, rfl, rfl, rfl, rfl, rfl⟩

/-- Witness for C9 at a concrete partial payment of 10. -/
theorem C9_witness :
    ∃ db', registrar_pago dbW ordenW (some 10) "PEN" "PLIN" .APROBADO 4 = .ok db'
      ∧ ∃ o', db'.ordenes.find? (fun x => x.id == ordenW.id) = some o'
        ∧ o'.codigo = ordenW.codigo ∧ o'.cliente_id = ordenW.cliente_id
        ∧ o'.canal_codigo = ordenW.canal_codigo ∧ o'.moneda = ordenW.moneda
        ∧ o'.items = ordenW.items ∧ o'.total = ordenW.total
        ∧ o'.creada_en = ordenW.creada_en ∧ o'.actualizada_en = 4 :=
  C9_update_solo_tres_campos dbW ordenW 10 "PEN" "PLIN" 4 rfl (by decide)

/-- C10: a REEMBOLSADO registration always persists the payment and leaves
the `ordenes` collection untouched; the guard at line 525 only fires for
APROBADO, so this holds for every database — also when an existing APROBADO
payment on the same order has the identical amount. -/
theorem C10_reembolsado_no_afecta (db : DB) (o : Orden) (m : ℚ)
    (mon met : String) (now : Nat) :
    registrar_pago db o (some m) mon met .REEMBOLSADO now =
      .ok { db with pagos := db.pagos ++ [pagoDocDe o m mon met .REEMBOLSADO now] } := by
  simp only [registrar_pago]
  rw [if_neg (by simp), if_neg (by simp)]

/-- One approved submission step: keeps the invariant `tpConsistente`,
never lowers the displayed `total_pagado`, and never moves an order away
from PAGADA. -/
lemma paso_aprobado (db : DB) (oid : Nat) (r : Registro)
    (hcons : tpConsistente db oid) (happr : r.estado = .APROBADO)
    (hpos : 0 < r.monto) :
    tpConsistente (pasoRegistro db oid r) oid
    ∧ tpOf db oid ≤ tpOf (pasoRegistro db oid r) oid
    ∧ (estadoOf db oid = some "PAGADA" →
        estadoOf (pasoRegistro db oid r) oid = some "PAGADA") := by
  cases hfind : db.ordenes.find? (fun x => x.id == oid) with
  | none =>
    have hpaso : pasoRegistro db oid r = db := by
      unfold pasoRegistro
      rw [hfind]
    rw [hpaso]
    exact ⟨hcons, le_refl _, fun h => h⟩
  | some o =>
    have hoid : o.id = oid := by
      have h := List.find?_some hfind
      simpa using h
    subst hoid
    by_cases hdup : esDupAprobado db.pagos o.id r.monto
    · have herr : registrar_pago db o (some r.monto) r.moneda r.metodo
          EstadoPago.APROBADO r.now = .error .duplicatePayment := by
        simp only [registrar_pago]
        rw [if_pos ⟨hdup, trivial⟩]
      have hpaso : pasoRegistro db o.id r = db := by
        unfold pasoRegistro
        rw [hfind, happr]
        simp only [herr]
      rw [hpaso]
      exact ⟨hcons, le_refl _, fun h => h⟩
    · have heq := registrar_pago_aprobado_eq db o r.monto r.moneda r.metodo r.now hdup
      have hpaso : pasoRegistro db o.id r =
          { ordenes :=
              updateOrden db.ordenes o.id fun x =>
                { x with
                    total_pagado := some (round2 (montoAprobado
                      (db.pagos ++ [pagoDocDe o r.monto r.moneda r.metodo
                        EstadoPago.APROBADO r.now]) o.id))
                    estado :=
                      if o.total ≤ round2 (montoAprobado
                          (db.pagos ++ [pagoDocDe o r.monto r.moneda r.metodo
                            EstadoPago.APROBADO r.now]) o.id)
                      then "PAGADA" else o.estado
                    actualizada_en := r.now }
            pagos := db.pagos ++ [pagoDocDe o r.monto r.moneda r.metodo
              EstadoPago.APROBADO r.now] } := by
        unfold pasoRegistro
        rw [hfind, happr]
        simp only [heq]
      have hord : (pasoRegistro db o.id r).ordenes =
          updateOrden db.ordenes o.id fun x =>
            { x with
                total_pagado := some (round2 (montoAprobado
                  (db.pagos ++ [pagoDocDe o r.monto r.moneda r.metodo
                    EstadoPago.APROBADO r.now]) o.id))
                estado :=
                  if o.total ≤ round2 (montoAprobado
                      (db.pagos ++ [pagoDocDe o r.monto r.moneda r.metodo
                        EstadoPago.APROBADO r.now]) o.id)
                  then "PAGADA" else o.estado
                actualizada_en := r.now } := by
        rw [hpaso]
      have hpag : (pasoRegistro db o.id r).pagos =
          db.pagos ++ [pagoDocDe o r.monto r.moneda r.metodo
            EstadoPago.APROBADO r.now] := by
        rw [hpaso]
      have hS : montoAprobado (db.pagos ++ [pagoDocDe o r.monto r.moneda r.metodo
          EstadoPago.APROBADO r.now]) o.id = montoAprobado db.pagos o.id + r.monto := by
        rw [montoAprobado_append, if_pos ⟨rfl, rfl⟩]
        rfl
      have hround : round2 (montoAprobado db.pagos o.id)
          ≤ round2 (montoAprobado (db.pagos ++ [pagoDocDe o r.monto r.moneda r.metodo
            EstadoPago.APROBADO r.now]) o.id) := by
        apply round2_mono
        rw [hS]
        linarith
      refine ⟨?_, ?_, ?_⟩
      · intro x hx hxid
        rw [hord] at hx
        rw [hpag]
        rcases mem_updateOrden hx with hmem | ⟨y, hy, hyid, rfl⟩
        · exact le_trans (hcons x hmem hxid) hround
        · exact le_refl _
      · unfold tpOf
        rw [hord, hfind, find?_updateOrden _ _ _ _ rfl hfind]
        exact le_trans (hcons o (List.mem_of_find?_eq_some hfind) rfl) hround
      · intro h
        have ho : o.estado = "PAGADA" := by
          unfold estadoOf at h
          rw [hfind] at h
          simpa using h
        unfold estadoOf
        rw [hord, find?_updateOrden _ _ _ _ rfl hfind]
        by_cases hc : o.total ≤ round2 (montoAprobado
            (db.pagos ++ [pagoDocDe o r.monto r.moneda r.metodo
              EstadoPago.APROBADO r.now]) o.id)
        · simp [hc]
        · simp [hc, ho]

/-- Replaying approved, positive submissions keeps the invariant, never
lowers `total_pagado` and never leaves PAGADA. -/
lemma aplicar_aux (oid : Nat) (rs : List Registro) :
    ∀ db : DB, tpConsistente db oid →
      (∀ r ∈ rs, r.estado = EstadoPago.APROBADO) → (∀ r ∈ rs, 0 < r.monto) →
      tpConsistente (aplicarRegistros db oid rs) oid
      ∧ tpOf db oid ≤ tpOf (aplicarRegistros db oid rs) oid
      ∧ (estadoOf db oid = some "PAGADA" →
          estadoOf (aplicarRegistros db oid rs) oid = some "PAGADA") := by
  induction rs with
  | nil =>
    intro db hc _ _
    exact ⟨hc, le_refl _, fun h => h⟩
  | cons r rs ih =>
    intro db hc ha hp
    have hstep := paso_aprobado db oid r hc (ha r (by simp)) (hp r (by simp))
    have hrest := ih (pasoRegistro db oid r) hstep.1
      (fun x hx => ha x (by simp [hx])) (fun x hx => hp x (by simp [hx]))
    have hfold : aplicarRegistros db oid (r :: rs) =
        aplicarRegistros (pasoRegistro db oid r) oid rs := rfl
    rw [hfold]
    exact ⟨hrest.1, le_trans hstep.2.1 hrest.2.1, fun h => hrest.2.2 (hstep.2.2 h)⟩

/-- C3: replaying any sequence of APROBADO registrations with
pairwise-different positive amounts against an order with a consistent
`total_pagado`, the displayed `total_pagado` never decreases along the
sequence, and once the estado is PAGADA no later registration moves it
away (lines 539-551: the aggregation only grows and the else branch keeps
the current estado). -/
theorem C3_total_pagado_monotono_y_pagada_estable (db : DB) (oid : Nat)
    (rs : List Registro) (hcons : tpConsistente db oid)
    (happr : ∀ r ∈ rs, r.estado = EstadoPago.APROBADO)
    (hpos : ∀ r ∈ rs, 0 < r.monto)
    (hdiff : rs.Pairwise (fun a b => a.monto ≠ b.monto)) :
    ∀ rs1 rs2 rs3, rs = (rs1 ++ rs2) ++ rs3 →
      tpOf (aplicarRegistros db oid rs1) oid
          ≤ tpOf (aplicarRegistros db oid (rs1 ++ rs2)) oid
      ∧ (estadoOf (aplicarRegistros db oid rs1) oid = some "PAGADA" →
          estadoOf (aplicarRegistros db oid (rs1 ++ rs2)) oid = some "PAGADA") := by
  intro rs1 rs2 rs3 hsplit
  subst hsplit
  have h1 := aplicar_aux oid rs1 db hcons
    (fun r hr => happr r (by simp [hr])) (fun r hr => hpos r (by simp [hr]))
  have h2 := aplicar_aux oid rs2 (aplicarRegistros db oid rs1) h1.1
    (fun r hr => happr r (by simp [hr])) (fun r hr => hpos r (by simp [hr]))
  have happ : aplicarRegistros db oid (rs1 ++ rs2) =
      aplicarRegistros (aplicarRegistros db oid rs1) oid rs2 := by
    simp [aplicarRegistros, List.foldl_append]
  rw [happ]
  exact ⟨h2.2.1, h2.2.2⟩

def regW40 : Registro :=
  { monto := 40, moneda := "PEN", metodo := "TARJETA", estado := .APROBADO, now := 1 }

def regW60 : Registro :=
  { monto := 60, moneda := "PEN", metodo := "YAPE", estado := .APROBADO, now := 2 }

def dbW3 : DB := { ordenes := [ordenW100 ], pagos := [pagoW40] }

/-- Witness for C3: after a 40 payment already applied, replaying a 60
payment never lowers the displayed total. -/
theorem C3_witness :
    tpOf (aplicarRegistros dbW3 1 [regW40]) 1
        ≤ tpOf (aplicarRegistros dbW3 1 ([regW40] ++ [regW60])) 1
    ∧ (estadoOf (aplicarRegistros dbW3 1 [regW40]) 1 = some "PAGADA" →
        estadoOf (aplicarRegistros dbW3 1 ([regW40] ++ [regW60])) 1 = some "PAGADA") :=
  C3_total_pagado_monotono_y_pagada_estable dbW3 1 [regW40, regW60]
    (by
      intro o ho hid
      simp only [dbW3, List.mem_singleton] at ho
      subst ho
      norm_num [ordenW100, ordenW, montoAprobado, pagoW40, round2, dbW3])
    (by decide) (by decide) (by decide)
    [regW40] [regW60] [] rfl

/-- C5: whenever order creation succeeds, every persisted line item has
`subtotal = round2(precio * cantidad)`, the order `total` is the rounded
sum of the subtotals, and the initial estado is CREADA (lines 451-466). -/
theorem C5_crear_orden_totales_y_estado (cliente : Option Nat)
    (canal moneda : String) (itemsIn : List ItemIn) (now oid : Nat) (orden : Orden)
    (h : crearOrden cliente canal moneda itemsIn now oid = .ok orden) :
    (∀ it ∈ orden.items, it.subtotal = round2 (it.precio * it.cantidad))
    ∧ orden.total = round2 ((orden.items.map Item.subtotal).sum)
    ∧ orden.estado = "CREADA" := by
  cases cliente with
  | none => simp [crearOrden] at h
  | some cli =>
    simp only [crearOrden] at h
    by_cases hany : (itemsIn.any fun x => x.producto_id.isNone) = true
    · rw [if_pos hany] at h
      cases h
    · rw [if_neg hany] at h
      split at h
      · injection h with h'
        subst h'
        refine ⟨?_, rfl, rfl⟩
        intro it hit
        have hmem : it ∈ itemsIn.map fun x =>
            ({ producto_id := x.producto_id.getD 0
               cantidad := x.cantidad
               precio := x.precio
               subtotal := round2 (x.precio * x.cantidad) } : Item) := hit
        rcases List.mem_map.mp hmem with ⟨x, _, rfl⟩
        rfl
      · cases h

def itemsInW : List ItemIn :=
  [ { producto_id := some 11, cantidad := 2, precio := 10 }
  , { producto_id := some 12, cantidad := 1, precio := 5 } ]

/-- Witness for C5: the spec's first example scenario
(2 x 10.00 and 1 x 5.00). -/
theorem C5_witness :
    (∀ it ∈ (ordenDoc 7 "WEB" "PEN" itemsInW 3 1).items,
        it.subtotal = round2 (it.precio * it.cantidad))
    ∧ (ordenDoc 7 "WEB" "PEN" itemsInW 3 1).total =
        round2 (((ordenDoc 7 "WEB" "PEN" itemsInW 3 1).items.map Item.subtotal).sum)
    ∧ (ordenDoc 7 "WEB" "PEN" itemsInW 3 1).estado = "CREADA" :=
  C5_crear_orden_totales_y_estado (some 7) "WEB" "PEN" itemsInW 3 1
    (ordenDoc 7 "WEB" "PEN" itemsInW 3 1) rfl

/-- C6: when the duplicate guard fires, registration returns
`DuplicatePaymentError` and, as a state transformer, changes nothing: no
payment is persisted and the order — `total_pagado`, estado and
`actualizada_en` included — is exactly as before (lines 518-526 write
nothing on this path). -/
theorem C6_rechazo_atomico (db : DB) (o : Orden) (m : ℚ) (mon met : String)
    (now : Nat)
    (hfind : db.ordenes.find? (fun x => x.id == o.id) = some o)
    (hdup : esDupAprobado db.pagos o.id m) :
    registrar_pago db o (some m) mon met .APROBADO now = .error .duplicatePayment
    ∧ pasoRegistro db o.id
        { monto := m, moneda := mon, metodo := met
          estado := .APROBADO, now := now } = db := by
  have herr : registrar_pago db o (some m) mon met .APROBADO now
      = .error .duplicatePayment := by
    simp only [registrar_pago]
    rw [if_pos ⟨hdup, trivial⟩]
  refine ⟨herr, ?_⟩
  unfold pasoRegistro
  rw [hfind]
  simp only [herr]

/-- Witness for C6: a second APROBADO payment of 40 is rejected and the
database is untouched. -/
theorem C6_witness :
    registrar_pago dbW100 ordenW100 (some 40) "PEN" "TARJETA" .APROBADO 5
        = .error .duplicatePayment
    ∧ pasoRegistro dbW100 ordenW100.id
        { monto := 40, moneda := "PEN", metodo := "TARJETA"
          estado := .APROBADO, now := 5 } = dbW100 :=
  C6_rechazo_atomico dbW100 ordenW100 40 "PEN" "TARJETA" 5 rfl (by decide)

/-- C7 counterexample: on an order with `total = 100` and an already
approved payment of 40, the Monto input defaults to the full total 100,
not to the outstanding 60 = total - approved. -/
theorem C7_counterexample :
    defaultMonto ordenW100 ≠
      some (ordenW100.total - round2 (montoAprobado dbW100.pagos ordenW100.id)) := by
  norm_num [defaultMonto, ordenW100, ordenW, dbW100, pagoW40, montoAprobado, round2]

/-- C7 as amended: the Monto input defaults to the order's full `total`
(line 514), regardless of payments already approved, and any
caller-supplied amount — larger or smaller than the order total — is
accepted and persisted, provided only that the duplicate guard does not
fire. -/
theorem C7_default_total_y_monto_libre (db : DB) (o : Orden) (m : ℚ)
    (mon met : String) (e : EstadoPago) (now : Nat)
    (htot : o.total ≠ 0)
    (hsafe : ¬ (esDupAprobado db.pagos o.id m ∧ e = EstadoPago.APROBADO)) :
    defaultMonto o = some o.total
    ∧ ∃ db', registrar_pago db o (some m) mon met e now = .ok db'
        ∧ db'.pagos = db.pagos ++ [pagoDocDe o m mon met e now] := by
  refine ⟨by simp [defaultMonto, htot], ?_⟩
  simp only [registrar_pago]
  rw [if_neg hsafe]
  by_cases he : e = EstadoPago.APROBADO
  · rw [if_pos he]
    exact ⟨_, rfl, rfl⟩
  · rw [if_neg he]
    exact ⟨_, rfl, rfl⟩

/-- Witness for C7: an overpayment of 999 against a total of 25 is
accepted and persisted. -/
theorem C7_witness :
    defaultMonto ordenW = some ordenW.total
    ∧ ∃ db', registrar_pago dbW ordenW (some 999) "PEN" "TRANSFERENCIA" .APROBADO 6 = .ok db'
        ∧ db'.pagos = dbW.pagos ++ [pagoDocDe ordenW 999 "PEN" "TRANSFERENCIA" .APROBADO 6] :=
  C7_default_total_y_monto_libre dbW ordenW 999 "PEN" "TRANSFERENCIA" .APROBADO 6
    (by decide) (by decide)

/-- C8 counterexample: a payment of -5 with estado PENDIENTE is NOT
rejected — it is persisted as-is (no negativity check exists anywhere on
the payment path), and `validar_pago`, which the payment tab never even
calls, also accepts the negative amount. -/
theorem C8_counterexample :
    registrar_pago dbW ordenW (some (-5)) "PEN" "EFECTIVO" .PENDIENTE 7 =
      .ok { dbW with pagos := dbW.pagos ++ [pagoDocDe ordenW (-5) "PEN" "EFECTIVO" .PENDIENTE 7] }
    ∧ validar_pago (some ordenW.id) (some (-5)) "PEN" "EFECTIVO" "PENDIENTE" = (true, "") := by
  constructor
  · simp only [registrar_pago]
    rw [if_neg (by simp), if_neg (by simp)]
  · rfl

/-- C8 as amended: a non-numeric amount makes `float(monto)` raise before
anything is written (an uncaught ValueError, not a ValidationError), so no
payment is persisted and the order is unchanged; a negative numeric amount
is never rejected — no negativity check exists (`validar_pago` is not
invoked on this path and itself accepts negatives), so the payment is
persisted whenever the duplicate guard stays silent. -/
theorem C8_monto_invalido (db : DB) (o : Orden) (mon met : String)
    (e : EstadoPago) (now : Nat) (m : ℚ) (hm : m < 0)
    (hsafe : ¬ (esDupAprobado db.pagos o.id m ∧ e = EstadoPago.APROBADO)) :
    registrar_pago db o none mon met e now = .error .valueError
    ∧ ∃ db', registrar_pago db o (some m) mon met e now = .ok db'
        ∧ db'.pagos = db.pagos ++ [pagoDocDe o m mon met e now] := by
  refine ⟨rfl, ?_⟩
  simp only [registrar_pago]
  rw [if_neg hsafe]
  by_cases he : e = EstadoPago.APROBADO
  · rw [if_pos he]
    exact ⟨_, rfl, rfl⟩
  · rw [if_neg he]
    exact ⟨_, rfl, rfl⟩

/-- Witness for C8's amended statement at amount -5. -/
theorem C8_witness :
    registrar_pago dbW ordenW none "PEN" "EFECTIVO" .PENDIENTE 7 = .error .valueError
    ∧ ∃ db', registrar_pago dbW ordenW (some (-5)) "PEN" "EFECTIVO" .PENDIENTE 7 = .ok db'
        ∧ db'.pagos = dbW.pagos ++ [pagoDocDe ordenW (-5) "PEN" "EFECTIVO" .PENDIENTE 7] :=
  C8_monto_invalido dbW ordenW "PEN" "EFECTIVO" .PENDIENTE 7 (-5) (by decide) (by decide)

end Veaza
